import Mathlib

/-!
Verification of the DebtRescue.AI authentication core.

This file gives a shallow embedding, in Lean 4, of the authentication
subsystem of the repository (backend services `auth.service.ts`, the
authentication middleware, and the password/email utility modules), and
proves the central behavioural properties of that subsystem.

Modelling conventions:
* Timestamps are natural numbers (milliseconds since the epoch, as in
  JavaScript `Date.now()`).
* The relational store (Prisma) is modelled as in-memory lists of rows;
  `findUnique`/`findFirst` become `List.find?`, `update` becomes a `map`
  that rewrites the matching row, `delete`/`deleteMany` become `filter`.
* External cryptographic collaborators (bcrypt compare, TOTP verification,
  SHA-256 backup-code hashing, token generation) are taken as parameters:
  the services are verified for every choice of these functions.
* Thrown service errors become `Except` values; an operation that mutates
  the store returns the (possibly unchanged) store next to its result,
  because the source performs writes before some of its throws.
* JavaScript strings are modelled as Lean `String`; ASCII-level character
  classes follow the regexes in the source.
-/

set_option maxRecDepth 4096

namespace DebtRescue

/-- Error taxonomy of `src/backend/src/utils/errors.ts` as used by the
authentication core: `ValidationError` (400), `UnauthorizedError` (401),
`ConflictError` (409), `NotFoundError` (404). -/
inductive AuthError where
  | validation (msg : String)
  | unauthorized (msg : String)
  | conflict (msg : String)
  | notFound (msg : String)
  deriving DecidableEq, Repr

/-- `true` exactly for `ValidationError`s. -/
def AuthError.isValidation : AuthError → Bool
  | .validation _ => true
  | _ => false

/-! ## Character classes and substring search (JS regex/string primitives) -/

/-- JS regex `[A-Z]` membership. -/
def isAsciiUpper (c : Char) : Bool := decide ('A' ≤ c) && decide (c ≤ 'Z')

/-- JS regex `[a-z]` membership. -/
def isAsciiLower (c : Char) : Bool := decide ('a' ≤ c) && decide (c ≤ 'z')

/-- JS regex `[0-9]` membership. -/
def isAsciiDigit (c : Char) : Bool := decide ('0' ≤ c) && decide (c ≤ '9')

/-- The punctuation class of the password-strength regex
`[!@#$%^&*()_+\-=\[\]{};':"\\|,.<>\/?]` in `validatePasswordStrength`
(the apostrophe and the braces are written via code points). -/
def specialChars : List Char :=
  ['!', '@', '#', '$', '%', '^', '&', '*', '(', ')', '_', '+', '-', '=',
   '[', ']', Char.ofNat 123, Char.ofNat 125, ';', Char.ofNat 39, ':', '"',
   '\\', '|', ',', '.', '<', '>', '/', '?']

/-- Membership in the password special-character class. -/
def isSpecialChar (c : Char) : Bool := specialChars.contains c

/-- `listPrefixOf needle hay`: `needle` is an initial segment of `hay`
(character-wise, as JS string comparison). -/
def listPrefixOf : List Char → List Char → Bool
  | [], _ => true
  | _ :: _, [] => false
  | a :: as, b :: bs => a == b && listPrefixOf as bs

/-- `containsSubstring needle hay`: JS `String.prototype.includes` — the
character list `needle` occurs contiguously inside `hay`. -/
def containsSubstring (needle : List Char) : List Char → Bool
  | [] => needle.isEmpty
  | b :: bs => listPrefixOf needle (b :: bs) || containsSubstring needle bs

/-! ## `validatePasswordStrength` (utils/password.ts, lines 18–44) -/

/-- Deny-list of `validatePasswordStrength`: common weak substrings,
matched case-insensitively against the password. -/
def weakPasswords : List String := ["password", "12345678", "qwerty", "abc123"]

/-- Shallow embedding of `validatePasswordStrength` (utils/password.ts):
a sequence of guard checks, each throwing `ValidationError`, in source
order: length ≥ 8, an uppercase letter, a lowercase letter, a digit, a
special character, and no deny-listed substring of the lowercased
password. -/
def validatePasswordStrength (password : String) : Except AuthError Unit :=
  if password.length < 8 then
    .error (.validation "Password must be at least 8 characters long")
  else if !(password.data.any isAsciiUpper) then
    .error (.validation "Password must contain at least one uppercase letter")
  else if !(password.data.any isAsciiLower) then
    .error (.validation "Password must contain at least one lowercase letter")
  else if !(password.data.any isAsciiDigit) then
    .error (.validation "Password must contain at least one number")
  else if !(password.data.any isSpecialChar) then
    .error (.validation "Password must contain at least one special character")
  else if weakPasswords.any
      (fun weak => containsSubstring weak.data (password.data.map Char.toLower)) then
    .error (.validation "Password is too weak")
  else
    .ok ()

/-- The disjunction of rejection causes named by the specification for
the password policy. -/
def passwordRejectionCause (password : String) : Prop :=
  password.length < 8 ∨
  password.data.any isAsciiUpper = false ∨
  password.data.any isAsciiLower = false ∨
  password.data.any isAsciiDigit = false ∨
  password.data.any isSpecialChar = false ∨
  weakPasswords.any
    (fun weak => containsSubstring weak.data (password.data.map Char.toLower)) = true

/-! ## Data model

One record per row of the Prisma `User` and `Session` tables, restricted
to the columns read or written by the authentication core. Prisma column
defaults (for `user.create` calls that omit a column) are reproduced in
`mkNewUser`. -/

/-- A `User` row. Nullable columns are `Option`; timestamp columns are
milliseconds-since-epoch naturals. -/
structure User where
  id : Nat
  email : String
  hashedPassword : Option String
  name : Option String
  phone : Option String
  avatar : Option String
  emailVerified : Bool
  emailVerifiedAt : Option Nat
  emailVerificationToken : Option String
  emailVerificationExpiry : Option Nat
  passwordResetToken : Option String
  passwordResetExpiry : Option Nat
  failedLoginAttempts : Nat
  lockedUntil : Option Nat
  isActive : Bool
  isSuspended : Bool
  suspensionReason : Option String
  deletedAt : Option Nat
  twoFactorEnabled : Bool
  twoFactorSecret : Option String
  backupCodes : List String
  lastLoginAt : Option Nat
  lastLoginIp : Option String
  deriving DecidableEq, Repr

/-- A `Session` row: one per issued refresh token. -/
structure Session where
  id : Nat
  userId : Nat
  refreshToken : String
  userAgent : String
  ipAddress : String
  expiresAt : Nat
  lastUsedAt : Option Nat
  deriving DecidableEq, Repr

/-- The relational store visible to the authentication core. The audit
log is append-only and best-effort (write failures are swallowed); no
claim observes it, so it is not carried in the state. -/
structure DB where
  users : List User
  sessions : List Session
  deriving DecidableEq, Repr

/-- External cryptographic collaborators, taken as parameters of the
embedding (the source consumes them from `bcrypt`, `speakeasy`-style TOTP
and `crypto`):
`comparePassword password hash`, `verifyTOTP code secret`,
`hashBackupCode code` (SHA-256 hex), `hashPassword password` (bcrypt). -/
structure Crypto where
  comparePassword : String → String → Bool
  verifyTOTP : String → String → Bool
  hashBackupCode : String → String
  hashPassword : String → String

/-- Rewrite the user row with the given id (Prisma
`user.update({ where: { id }, data })`). -/
def updateUser (users : List User) (id : Nat) (f : User → User) : List User :=
  users.map (fun v => if v.id == id then f v else v)

/-- JS `Array.prototype.indexOf` specialised to strings: the first index
holding the value, if any. -/
def indexOfStr (a : String) : List String → Option Nat
  | [] => none
  | b :: bs => if b == a then some 0 else (indexOfStr a bs).map (· + 1)

/-! ## Login (auth.service.ts, first version, lines 126–270) -/

/-- The two non-error outcomes of `AuthService.login`: the distinguished
"2FA required" result (no tokens issued), or full success (token issuance
is a pure function of the user id and email and is elided). -/
inductive LoginResult where
  | requiresTwoFactor (userId : Nat) (message : String)
  | success (userId : Nat)
  deriving DecidableEq, Repr

/-- The guard `user.lockedUntil && user.lockedUntil > new Date()`. -/
def lockActive (u : User) (now : Nat) : Bool :=
  match u.lockedUntil with
  | some t => decide (now < t)
  | none => false

/-- The remaining-minutes lockout message
(`Math.ceil((lockedUntil - now) / 60000)` becomes ceiling division). -/
def lockoutRemainingMessage (t now : Nat) : String :=
  "Account locked due to too many failed login attempts. Try again in " ++
    toString ((t - now + 59999) / 60000) ++ " minutes."

/-- `AuthService.verifyBackupCode` (first version, lines 691–719): hash
the supplied code, look it up among the stored backup-code hashes by JS
`indexOf`, and on a hit remove exactly the element at the found index
(`filter((_, index) => index !== codeIndex)`), returning whether the code
was consumed together with the updated row. -/
def verifyBackupCode (c : Crypto) (u : User) (code : String) : Bool × User :=
  if u.backupCodes.length == 0 then
    (false, u)
  else
    match indexOfStr (c.hashBackupCode code) u.backupCodes with
    | none => (false, u)
    | some i => (true, { u with backupCodes := u.backupCodes.eraseIdx i })

/-- The final store write and return value of a fully successful login:
reset `failedLoginAttempts`, clear `lockedUntil`, stamp
`lastLoginAt`/`lastLoginIp`. -/
def loginSuccess (now : Nat) (u : User) (ip : Option String) :
    Except AuthError LoginResult × User :=
  (.ok (.success u.id),
   { u with failedLoginAttempts := 0, lockedUntil := none,
            lastLoginAt := some now, lastLoginIp := ip })

/-- Shallow embedding of `AuthService.login` (first version, lines
126–270), taking the user row found by the normalized-email lookup (the
no-row and no-password-hash cases collapse to the same generic error, as
in the source). The returned row is the row as left in the store; writes
that precede a throw are preserved. The source reads `twoFactorSecret`
under a non-null assertion; the embedding totalises that read with the
empty string. -/
def login (c : Crypto) (now : Nat) (u : User) (password : String)
    (twoFactorCode : Option String) (ip : Option String) :
    Except AuthError LoginResult × User :=
  match u.hashedPassword with
  | none => (.error (.unauthorized "Invalid email or password"), u)
  | some hp =>
    if u.isSuspended then
      (.error (.unauthorized
        ("Account suspended. Reason: " ++ u.suspensionReason.getD "Contact support")), u)
    else if lockActive u now then
      (.error (.unauthorized
        (lockoutRemainingMessage (u.lockedUntil.getD 0) now)), u)
    else if !(c.comparePassword password hp) then
      let failedAttempts := u.failedLoginAttempts + 1
      let lockAccount : Bool := decide (5 ≤ failedAttempts)
      let u' := { u with
        failedLoginAttempts := failedAttempts,
        lockedUntil := if lockAccount then some (now + 15 * 60 * 1000) else none }
      if lockAccount then
        (.error (.unauthorized
          "Too many failed login attempts. Account locked for 15 minutes."), u')
      else
        (.error (.unauthorized "Invalid email or password"), u')
    else if u.twoFactorEnabled then
      match twoFactorCode with
      | none =>
        (.ok (.requiresTwoFactor u.id "Two-factor authentication required"), u)
      | some code =>
        if c.verifyTOTP code (u.twoFactorSecret.getD "") then
          loginSuccess now u ip
        else
          match verifyBackupCode c u code with
          | (true, u1) => loginSuccess now u1 ip
          | (false, u1) =>
            (.error (.unauthorized "Invalid two-factor authentication code"), u1)
    else
      loginSuccess now u ip

/-! ## Email utilities (utils/email.ts) -/

/-- JS regex `\s` membership, modelled as Unicode whitespace. -/
def isJsSpace (c : Char) : Bool := c.isWhitespace

/-- JS `String.prototype.split(sep)` over character lists: splits at
every occurrence of `sep`. -/
def splitChar (sep : Char) : List Char → List (List Char)
  | [] => [[]]
  | c :: cs =>
    if c == sep then [] :: splitChar sep cs
    else
      match splitChar sep cs with
      | [] => [[c]]
      | h :: t => (c :: h) :: t

/-- The test of the regex `^[^\s@]+@[^\s@]+\.[^\s@]+$` from
`validateEmail`: exactly one `@`; a nonempty whitespace-free local part;
a whitespace-free domain containing a dot that is neither its first nor
its last character (the two `[^\s@]+` groups around the literal dot). -/
def emailFormatOk (s : String) : Bool :=
  match splitChar '@' s.data with
  | [localPart, domain] =>
    !localPart.isEmpty && localPart.all (fun ch => !(isJsSpace ch)) &&
    !domain.isEmpty && domain.all (fun ch => !(isJsSpace ch)) &&
    ((domain.drop 1).dropLast).contains '.'
  | _ => false

/-- Deny-list of disposable email domains in `validateEmail`. -/
def disposableDomains : List String :=
  ["tempmail.com", "10minutemail.com", "guerrillamail.com"]

/-- Shallow embedding of `validateEmail` (utils/email.ts): format regex,
local part at most 64 characters, domain at most 255 characters, and no
disposable domain as a (case-insensitive) substring of the domain. -/
def validateEmail (email : String) : Except AuthError Unit :=
  if !(emailFormatOk email) then
    .error (.validation "Invalid email format")
  else
    let localPart := (splitChar '@' email.data).headD []
    let domain := ((splitChar '@' email.data).drop 1).headD []
    if 64 < localPart.length then
      .error (.validation "Email local part too long")
    else if 255 < domain.length then
      .error (.validation "Email domain too long")
    else if disposableDomains.any
        (fun d => containsSubstring d.data (domain.map Char.toLower)) then
      .error (.validation "Disposable email addresses are not allowed")
    else
      .ok ()

/-- JS `String.prototype.trim` on character lists: strip leading and
trailing whitespace. -/
def trimChars (l : List Char) : List Char :=
  ((l.dropWhile isJsSpace).reverse.dropWhile isJsSpace).reverse

/-- JS `String.prototype.trim`. -/
def trimString (s : String) : String := ⟨trimChars s.data⟩

/-- `normalizeEmail` (utils/email.ts): `email.toLowerCase().trim()`. -/
def normalizeEmail (email : String) : String :=
  ⟨trimChars (email.data.map Char.toLower)⟩

/-! ## Signup — the two co-present versions of `AuthService.signup` -/

/-- The input of `AuthService.signup`. -/
structure SignupData where
  email : String
  password : String
  name : Option String
  phone : Option String
  deriving DecidableEq, Repr

/-- A freshly created `User` row: columns not named in the `create` call
take their Prisma schema defaults. -/
def mkNewUser (id : Nat) (email : String) (hashedPassword : Option String)
    (name phone : Option String)
    (verTok : Option String) (verExpiry : Option Nat) : User :=
  { id := id, email := email, hashedPassword := hashedPassword,
    name := name, phone := phone, avatar := none,
    emailVerified := false, emailVerifiedAt := none,
    emailVerificationToken := verTok, emailVerificationExpiry := verExpiry,
    passwordResetToken := none, passwordResetExpiry := none,
    failedLoginAttempts := 0, lockedUntil := none,
    isActive := true, isSuspended := false, suspensionReason := none,
    deletedAt := none, twoFactorEnabled := false, twoFactorSecret := none,
    backupCodes := [], lastLoginAt := none, lastLoginIp := none }

/-- `AuthService.createSession` (both versions): a new `Session` row
with a 30-day expiry and `Unknown` device-metadata defaults. -/
def createSession (sessId userId : Nat) (refreshToken : String)
    (userAgent ipAddress : Option String) (now : Nat) : Session :=
  { id := sessId, userId := userId, refreshToken := refreshToken,
    userAgent := userAgent.getD "Unknown", ipAddress := ipAddress.getD "Unknown",
    expiresAt := now + 30 * 24 * 60 * 60 * 1000, lastUsedAt := none }

/-- Shallow embedding of the first co-present `AuthService.signup`
(auth.service.ts lines 51–121): validate and normalize the email, reject
a duplicate with `ConflictError`, validate password strength, hash, and
create the user with a verification token but **no**
`emailVerificationExpiry`; then create a session. Nondeterministic
inputs (generated token, fresh row ids, refresh token) are parameters. -/
def signupV1 (c : Crypto) (genTok refreshTok : String) (newId sessId now : Nat)
    (db : DB) (data : SignupData) (userAgent ipAddress : Option String) :
    Except AuthError Nat × DB :=
  match validateEmail data.email with
  | .error e => (.error e, db)
  | .ok _ =>
    let normalizedEmail := normalizeEmail data.email
    match db.users.find? (fun u => u.email == normalizedEmail) with
    | some _ => (.error (.conflict "An account with this email already exists"), db)
    | none =>
      match validatePasswordStrength data.password with
      | .error e => (.error e, db)
      | .ok _ =>
        let user := mkNewUser newId normalizedEmail
          (some (c.hashPassword data.password))
          (data.name.map trimString) (data.phone.map trimString)
          (some genTok) none
        (.ok newId,
         { users := db.users ++ [user],
           sessions := db.sessions ++
             [createSession sessId newId refreshTok userAgent ipAddress now] })

/-- Shallow embedding of the second co-present `AuthService.signup`
(auth.service.ts lines 952–1031): identical to the first except that the
verification token is created with a 24-hour
`emailVerificationExpiry`. -/
def signupV2 (c : Crypto) (genTok refreshTok : String) (newId sessId now : Nat)
    (db : DB) (data : SignupData) (userAgent ipAddress : Option String) :
    Except AuthError Nat × DB :=
  match validateEmail data.email with
  | .error e => (.error e, db)
  | .ok _ =>
    let normalizedEmail := normalizeEmail data.email
    match db.users.find? (fun u => u.email == normalizedEmail) with
    | some _ => (.error (.conflict "An account with this email already exists"), db)
    | none =>
      match validatePasswordStrength data.password with
      | .error e => (.error e, db)
      | .ok _ =>
        let user := mkNewUser newId normalizedEmail
          (some (c.hashPassword data.password))
          (data.name.map trimString) (data.phone.map trimString)
          (some genTok) (some (now + 24 * 60 * 60 * 1000))
        (.ok newId,
         { users := db.users ++ [user],
           sessions := db.sessions ++
             [createSession sessId newId refreshTok userAgent ipAddress now] })

/-! ## Email verification — the two co-present versions of
`AuthService.verifyEmail` -/

/-- Shallow embedding of the first co-present `AuthService.verifyEmail`
(auth.service.ts lines 363–399): lookup by token; `ValidationError` if
no match or already verified — there is **no** expiry check; on success
set the verified flag and timestamp and clear the token (the expiry
column is left untouched). -/
def verifyEmailV1 (now : Nat) (db : DB) (token : String) :
    Except AuthError String × DB :=
  match db.users.find? (fun u => u.emailVerificationToken == some token) with
  | none => (.error (.validation "Invalid or expired verification token"), db)
  | some u =>
    if u.emailVerified then
      (.error (.validation "Email already verified"), db)
    else
      (.ok "Email verified successfully",
       { db with users := updateUser db.users u.id (fun v =>
           { v with emailVerified := true, emailVerifiedAt := some now,
                    emailVerificationToken := none }) })

/-- The guard `user.emailVerificationExpiry && user.emailVerificationExpiry < new Date()`
of the second `verifyEmail`. -/
def verificationExpired (u : User) (now : Nat) : Bool :=
  match u.emailVerificationExpiry with
  | some e => decide (e < now)
  | none => false

/-- Shallow embedding of the second co-present `AuthService.verifyEmail`
(auth.service.ts lines 1249–1286): lookup by token; `ValidationError` if
no match, if the expiry is set and past, or if already verified; on
success set the verified flag and timestamp and clear both the token and
the expiry. -/
def verifyEmailV2 (now : Nat) (db : DB) (token : String) :
    Except AuthError String × DB :=
  match db.users.find? (fun u => u.emailVerificationToken == some token) with
  | none => (.error (.validation "Invalid verification token"), db)
  | some u =>
    if verificationExpired u now then
      (.error (.validation "Verification token has expired. Please request a new one."), db)
    else if u.emailVerified then
      (.error (.validation "Email already verified"), db)
    else
      (.ok "Email verified successfully",
       { db with users := updateUser db.users u.id (fun v =>
           { v with emailVerified := true, emailVerifiedAt := some now,
                    emailVerificationToken := none,
                    emailVerificationExpiry := none }) })

/-! ## Anti-enumeration endpoints (auth.service.ts, first version) -/

/-- The unconditional response message of `requestPasswordReset`. -/
def resetRequestMessage : String :=
  "If an account with that email exists, a password reset link has been sent."

/-- The generic response message of `resendVerificationEmail`. -/
def resendMessage : String :=
  "If an account exists, a verification email has been sent."

/-- Shallow embedding of `AuthService.requestPasswordReset`
(auth.service.ts lines 441–482): look up by normalized email; if absent,
return the generic message; if present, store a fresh reset token with a
1-hour expiry and return the same generic message. Email delivery is
best-effort and not observable here. -/
def requestPasswordReset (genTok : String) (now : Nat) (db : DB) (email : String) :
    Except AuthError String × DB :=
  let normalizedEmail := normalizeEmail email
  match db.users.find? (fun u => u.email == normalizedEmail) with
  | none => (.ok resetRequestMessage, db)
  | some u =>
    (.ok resetRequestMessage,
     { db with users := updateUser db.users u.id (fun v =>
         { v with passwordResetToken := some genTok,
                  passwordResetExpiry := some (now + 3600000) }) })

/-- Shallow embedding of `AuthService.resendVerificationEmail`
(auth.service.ts lines 404–436): look up by normalized email; if absent,
return the generic message; if present and already verified, throw
`ValidationError`; otherwise store a fresh verification token and return
the same generic message. -/
def resendVerificationEmail (genTok : String) (db : DB) (email : String) :
    Except AuthError String × DB :=
  let normalizedEmail := normalizeEmail email
  match db.users.find? (fun u => u.email == normalizedEmail) with
  | none => (.ok resendMessage, db)
  | some u =>
    if u.emailVerified then
      (.error (.validation "Email already verified"), db)
    else
      (.ok resendMessage,
       { db with users := updateUser db.users u.id (fun v =>
           { v with emailVerificationToken := some genTok }) })

/-! ## Password reset execution (`AuthService.resetPassword`) -/

/-- The `findFirst` filter of `resetPassword`: the reset token matches
and the expiry is set and strictly in the future
(`passwordResetExpiry: { gt: new Date() }`). -/
def resetTokenMatch (now : Nat) (token : String) (u : User) : Bool :=
  u.passwordResetToken == some token &&
    (match u.passwordResetExpiry with
     | some e => decide (now < e)
     | none => false)

/-- Shallow embedding of `AuthService.resetPassword` (auth.service.ts
lines 487–536): find a user holding the unexpired token, else
`ValidationError`; validate the new password's strength; store the new
hash, clear the reset token and expiry, reset the lockout counters; and
delete every session of the user. -/
def resetPassword (c : Crypto) (now : Nat) (db : DB) (token newPassword : String) :
    Except AuthError String × DB :=
  match db.users.find? (resetTokenMatch now token) with
  | none => (.error (.validation "Invalid or expired reset token"), db)
  | some u =>
    match validatePasswordStrength newPassword with
    | .error e => (.error e, db)
    | .ok _ =>
      (.ok "Password reset successfully. Please log in with your new password.",
       { users := updateUser db.users u.id (fun v =>
           { v with hashedPassword := some (c.hashPassword newPassword),
                    passwordResetToken := none, passwordResetExpiry := none,
                    failedLoginAttempts := 0, lockedUntil := none }),
         sessions := db.sessions.filter (fun s => !(s.userId == u.id)) })

/-! ## Refresh and session revocation -/

/-- A signed access token as issued by `generateAccessToken`: the pure
payload `{ userId, email, type: "access" }` (signing is a collaborator). -/
structure AccessToken where
  userId : Nat
  email : String
  deriving DecidableEq, Repr

/-- Shallow embedding of `AuthService.refreshAccessToken`
(auth.service.ts lines 724–757): look up the session by refresh-token
value (`UnauthorizedError` if none); if expired, delete that session and
throw; if the owning user is suspended or soft-deleted, throw; otherwise
issue a fresh access token and touch `lastUsedAt`. The session's user
relation is total in the store (foreign key); a dangling owner is mapped
to the inactive-account error. -/
def refreshAccessToken (now : Nat) (db : DB) (refreshToken : String) :
    Except AuthError AccessToken × DB :=
  match db.sessions.find? (fun s => s.refreshToken == refreshToken) with
  | none => (.error (.unauthorized "Invalid refresh token"), db)
  | some s =>
    if s.expiresAt < now then
      (.error (.unauthorized "Refresh token expired"),
       { db with sessions := db.sessions.filter (fun t => !(t.id == s.id)) })
    else
      match db.users.find? (fun u => u.id == s.userId) with
      | none => (.error (.unauthorized "Account is no longer active"), db)
      | some u =>
        if u.isSuspended || u.deletedAt.isSome then
          (.error (.unauthorized "Account is no longer active"), db)
        else
          (.ok { userId := u.id, email := u.email },
           { db with sessions := db.sessions.map (fun t =>
               if t.id == s.id then { t with lastUsedAt := some now } else t) })

/-- Shallow embedding of `AuthService.deleteSession` (auth.service.ts
lines 833–847): find the session by id **and** owner; `NotFoundError` if
none; otherwise delete the row with that id. -/
def deleteSession (db : DB) (sessionId userId : Nat) :
    Except AuthError String × DB :=
  match db.sessions.find? (fun s => s.id == sessionId && s.userId == userId) with
  | none => (.error (.notFound "Session not found"), db)
  | some _ =>
    (.ok "Session deleted successfully",
     { db with sessions := db.sessions.filter (fun s => !(s.id == sessionId)) })

/-! ## Access-token middleware (auth.middleware.ts) -/

/-- The claims carried by a verified bearer token. -/
structure TokenPayload where
  userId : Nat
  email : String
  type : String
  sessionId : Option Nat
  deriving DecidableEq, Repr

/-- The request context written by the middleware: the attached identity
(`req.user`) and session id (`req.session`), if any. -/
structure ReqContext where
  user : Option (Nat × String)
  sessionId : Option Nat
  deriving DecidableEq, Repr

/-- The unauthenticated request context. -/
def ReqContext.anonymous : ReqContext := { user := none, sessionId := none }

/-- Shallow embedding of `authMiddleware` (the main authentication
middleware): reject without a `Bearer` header; verify the token
(`vt` models `verifyToken`, whose failures are `UnauthorizedError`s);
reject non-`access` tokens; load the user fresh from the store and
reject if missing, inactive, suspended, or soft-deleted; otherwise
attach the identity and any token-carried session id. -/
def authMiddleware (vt : String → Except AuthError TokenPayload) (db : DB)
    (authHeader : Option String) : Except AuthError ReqContext :=
  match authHeader with
  | none => .error (.unauthorized "No token provided")
  | some h =>
    if !(listPrefixOf "Bearer ".data h.data) then
      .error (.unauthorized "No token provided")
    else
      match vt ⟨h.data.drop 7⟩ with
      | .error e => .error e
      | .ok payload =>
        if !(payload.type == "access") then
          .error (.unauthorized "Invalid token type")
        else
          match db.users.find? (fun u => u.id == payload.userId) with
          | none => .error (.unauthorized "User not found")
          | some u =>
            if !u.isActive || u.isSuspended || u.deletedAt.isSome then
              .error (.unauthorized "Account is not active")
            else
              .ok { user := some (u.id, u.email), sessionId := payload.sessionId }

/-- Shallow embedding of `optionalAuthenticate`: the same token
extraction, but every failure (including a `verifyToken` throw, caught
by the surrounding `try`) falls through to an unauthenticated context —
the function never rejects, which the return type records. The store
lookup selects only `id` and `email`: there is **no** activity,
suspension, or deletion check, and `req.session` is never set. -/
def optionalAuthenticate (vt : String → Except AuthError TokenPayload) (db : DB)
    (authHeader : Option String) : ReqContext :=
  match authHeader with
  | none => ReqContext.anonymous
  | some h =>
    if !(listPrefixOf "Bearer ".data h.data) then
      ReqContext.anonymous
    else
      match vt ⟨h.data.drop 7⟩ with
      | .error _ => ReqContext.anonymous
      | .ok payload =>
        if !(payload.type == "access") then
          ReqContext.anonymous
        else
          match db.users.find? (fun u => u.id == payload.userId) with
          | none => ReqContext.anonymous
          | some u => { user := some (u.id, u.email), sessionId := none }

/-! ## Concrete instances used by witnesses and counterexamples -/

/-- A concrete collaborator bundle for witnesses: password compare is
string equality against the stored "hash", TOTP verification compares
the code with the secret, and hashing is tagging. -/
def demoCrypto : Crypto :=
  { comparePassword := fun p h => p == h,
    verifyTOTP := fun code secret => code == secret,
    hashBackupCode := fun code => "sha256:" ++ code,
    hashPassword := fun p => "bcrypt:" ++ p }

/-- A baseline healthy user row for concrete scenarios. -/
def baseUser : User :=
  { id := 1, email := "user@example.com", hashedPassword := some "pw",
    name := none, phone := none, avatar := none,
    emailVerified := false, emailVerifiedAt := none,
    emailVerificationToken := none, emailVerificationExpiry := none,
    passwordResetToken := none, passwordResetExpiry := none,
    failedLoginAttempts := 0, lockedUntil := none,
    isActive := true, isSuspended := false, suspensionReason := none,
    deletedAt := none, twoFactorEnabled := false, twoFactorSecret := none,
    backupCodes := [], lastLoginAt := none, lastLoginIp := none }

/-! ## Helper lemmas -/

/-- JS `indexOf` misses exactly the absent values. -/
theorem indexOfStr_eq_none (a : String) (l : List String) :
    indexOfStr a l = none ↔ a ∉ l := by
  induction l with
  | nil => simp [indexOfStr]
  | cons b bs ih =>
    by_cases h : b == a
    · have hba : b = a := by simpa using h
      simp [indexOfStr, h, hba]
    · have hba : ¬ a = b := fun hc => h (by simp [hc])
      simp [indexOfStr, h, ih, hba]

/-- Erasing at the index returned by JS `indexOf` is erasing the first
occurrence of the value. -/
theorem eraseIdx_indexOfStr (a : String) (l : List String) :
    ∀ i, indexOfStr a l = some i → l.eraseIdx i = l.erase a := by
  induction l with
  | nil => intro i h; simp [indexOfStr] at h
  | cons b bs ih =>
    intro i h
    by_cases hba : b == a
    · simp only [indexOfStr, hba, if_true] at h
      injection h with h0
      subst h0
      simp [List.erase_cons, hba]
    · simp only [indexOfStr, hba, if_false, Option.map_eq_some', Bool.false_eq_true] at h
      obtain ⟨j, hj, rfl⟩ := h
      simp [List.erase_cons, hba, List.eraseIdx, ih j hj]

/-! ## C8 — password strength policy -/

/-- C8 — Password strength policy: `validatePasswordStrength` rejects a
password if and only if it is shorter than 8 characters, or lacks an
uppercase letter, a lowercase letter, a digit, or a symbol from the
defined punctuation class, or contains (case-insensitively, as a
substring) an entry of the weak-password deny-list; and every rejection
is a `ValidationError`. -/
theorem c8_password_policy (password : String) :
    ((validatePasswordStrength password = .ok ()) ↔ ¬ passwordRejectionCause password) ∧
    (∀ e, validatePasswordStrength password = .error e → e.isValidation = true) := by
  constructor
  · unfold validatePasswordStrength passwordRejectionCause
    repeat' split
    all_goals simp_all
  · intro e h
    unfold validatePasswordStrength at h
    repeat' split at h
    all_goals (try (injection h with h2; rw [← h2]; rfl))
    exact Except.noConfusion h

/-! ## C1 — account lockout on login -/

/-- C1 counterexample — the claim quantifies over *every* user with a
password hash, but a suspended account is rejected with the suspension
message before the password is checked: here the password is wrong
(`"wrong"` does not compare as the stored hash `"pw"`), yet
`failedLoginAttempts` is not incremented and the error is neither the
generic invalid-credentials message nor the lockout message. -/
theorem c1_lockout_counterexample :
    ({ baseUser with isSuspended := true } : User).hashedPassword = some "pw" ∧
    demoCrypto.comparePassword "wrong" "pw" = false ∧
    login demoCrypto 0 { baseUser with isSuspended := true } "wrong" none none =
      (.error (.unauthorized "Account suspended. Reason: Contact support"),
       { baseUser with isSuspended := true }) ∧
    (login demoCrypto 0 { baseUser with isSuspended := true } "wrong" none
        none).2.failedLoginAttempts =
      ({ baseUser with isSuspended := true } : User).failedLoginAttempts := by
  exact ⟨rfl, by decide, rfl, rfl⟩

/-- C1 (amended) — for every non-suspended user with a password hash:
a wrong-password attempt made while the account is not locked increments
`failedLoginAttempts` by one; when the new count reaches 5 the account
is locked for 15 minutes and the lockout message is raised, otherwise
the generic invalid-credentials message is raised; and an attempt made
while `lockedUntil` is in the future raises the remaining-minutes
message with no state change and no password check — for every supplied
password, including the correct one. -/
theorem c1_lockout (c : Crypto) (now : Nat) (u : User) (hp password : String)
    (code : Option String) (ip : Option String)
    (hhash : u.hashedPassword = some hp) (hsusp : u.isSuspended = false) :
    (lockActive u now = false → c.comparePassword password hp = false →
      (login c now u password code ip).2.failedLoginAttempts =
          u.failedLoginAttempts + 1 ∧
      (5 ≤ u.failedLoginAttempts + 1 →
        login c now u password code ip =
          (.error (.unauthorized
              "Too many failed login attempts. Account locked for 15 minutes."),
           { u with failedLoginAttempts := u.failedLoginAttempts + 1,
                    lockedUntil := some (now + 15 * 60 * 1000) })) ∧
      (u.failedLoginAttempts + 1 < 5 →
        login c now u password code ip =
          (.error (.unauthorized "Invalid email or password"),
           { u with failedLoginAttempts := u.failedLoginAttempts + 1,
                    lockedUntil := none }))) ∧
    (∀ t, u.lockedUntil = some t → now < t →
      login c now u password code ip =
        (.error (.unauthorized (lockoutRemainingMessage t now)), u)) := by
  constructor
  · intro hlock hcmp
    by_cases h5 : 5 ≤ u.failedLoginAttempts + 1
    · have hred : login c now u password code ip =
          (.error (.unauthorized
              "Too many failed login attempts. Account locked for 15 minutes."),
           { u with failedLoginAttempts := u.failedLoginAttempts + 1,
                    lockedUntil := some (now + 15 * 60 * 1000) }) := by
        simp [login, hhash, hsusp, hlock, hcmp, h5]
      exact ⟨by rw [hred], fun _ => hred, fun hlt => absurd h5 (by omega)⟩
    · have hred : login c now u password code ip =
          (.error (.unauthorized "Invalid email or password"),
           { u with failedLoginAttempts := u.failedLoginAttempts + 1,
                    lockedUntil := none }) := by
        simp [login, hhash, hsusp, hlock, hcmp, h5]
      exact ⟨by rw [hred], fun h5c => absurd h5c h5, fun _ => hred⟩
  · intro t ht hnt
    have hla : lockActive u now = true := by simp [lockActive, ht, hnt]
    simp [login, hhash, hsusp, hla, ht]

/-- C1 witness — a user at 4 failed attempts, not suspended, not locked:
the fifth wrong password locks the account until minute 15 and raises
the lockout message. -/
theorem c1_lockout_witness :
    login demoCrypto 0 { baseUser with failedLoginAttempts := 4 } "wrong" none none =
      (.error (.unauthorized
          "Too many failed login attempts. Account locked for 15 minutes."),
       { baseUser with failedLoginAttempts := 5, lockedUntil := some 900000 }) := by
  have h := c1_lockout demoCrypto 0 { baseUser with failedLoginAttempts := 4 }
    "pw" "wrong" none none rfl rfl
  have h2 := (h.1 rfl (by decide)).2.1 (by decide)
  exact h2

/-! ## C3 — a backup code is consumed exactly once -/

/-- A login attempt whose code fails TOTP and whose hash is not among
the stored backup-code hashes is rejected with no state change. -/
theorem login_invalid_2fa (c : Crypto) (now : Nat) (v : User)
    (hp password code : String) (ip : Option String)
    (hhash : v.hashedPassword = some hp)
    (hsusp : v.isSuspended = false)
    (hlock : lockActive v now = false)
    (hcmp : c.comparePassword password hp = true)
    (h2fa : v.twoFactorEnabled = true)
    (htotp : c.verifyTOTP code (v.twoFactorSecret.getD "") = false)
    (hnot : c.hashBackupCode code ∉ v.backupCodes) :
    login c now v password (some code) ip =
      (.error (.unauthorized "Invalid two-factor authentication code"), v) := by
  have hvb : verifyBackupCode c v code = (false, v) := by
    unfold verifyBackupCode
    by_cases hz : (v.backupCodes.length == 0) = true
    · simp [hz]
    · simp only [Bool.not_eq_true] at hz
      simp [hz, (indexOfStr_eq_none _ _).2 hnot]
  simp [login, hhash, hsusp, hlock, hcmp, h2fa, htotp, hvb]

/-- C3 — During login with 2FA enabled, a code that fails TOTP
verification but whose hash is among the stored backup-code hashes (a
set: the hash occurs once) logs the user in and removes that hash from
the row; repeating the identical attempt against the resulting row — at
any later time, again failing TOTP — finds no matching hash, raises
`UnauthorizedError`, and leaves the row unchanged. -/
theorem c3_backup_code_single_use (c : Crypto) (now now2 : Nat) (u : User)
    (hp password code : String) (ip ip2 : Option String)
    (hhash : u.hashedPassword = some hp)
    (hsusp : u.isSuspended = false)
    (hlock : lockActive u now = false)
    (hcmp : c.comparePassword password hp = true)
    (h2fa : u.twoFactorEnabled = true)
    (htotp : c.verifyTOTP code (u.twoFactorSecret.getD "") = false)
    (hmem : c.hashBackupCode code ∈ u.backupCodes)
    (hcount : u.backupCodes.count (c.hashBackupCode code) = 1) :
    (login c now u password (some code) ip).1 = .ok (.success u.id) ∧
    c.hashBackupCode code ∉ (login c now u password (some code) ip).2.backupCodes ∧
    login c now2 (login c now u password (some code) ip).2 password (some code) ip2 =
      (.error (.unauthorized "Invalid two-factor authentication code"),
       (login c now u password (some code) ip).2) := by
  obtain ⟨i, hi⟩ : ∃ i, indexOfStr (c.hashBackupCode code) u.backupCodes = some i := by
    cases hopt : indexOfStr (c.hashBackupCode code) u.backupCodes with
    | none => exact absurd ((indexOfStr_eq_none _ _).1 hopt) (by simp [hmem])
    | some j => exact ⟨j, rfl⟩
  have hlen : (u.backupCodes.length == 0) = false := by
    have := List.ne_nil_of_mem hmem
    simp [List.length_eq_zero]
    exact this
  have hvb1 : verifyBackupCode c u code =
      (true, { u with backupCodes := u.backupCodes.eraseIdx i }) := by
    simp [verifyBackupCode, hlen, hi]
  have hstep1 : login c now u password (some code) ip =
      (.ok (.success u.id),
       { u with backupCodes := u.backupCodes.eraseIdx i,
                failedLoginAttempts := 0, lockedUntil := none,
                lastLoginAt := some now, lastLoginIp := ip }) := by
    simp [login, hhash, hsusp, hlock, hcmp, h2fa, htotp, hvb1, loginSuccess]
  have herase : u.backupCodes.eraseIdx i = u.backupCodes.erase (c.hashBackupCode code) :=
    eraseIdx_indexOfStr _ _ i hi
  have hgone : c.hashBackupCode code ∉ u.backupCodes.eraseIdx i := by
    rw [herase]
    intro hc
    have hpos := List.count_pos_iff.2 hc
    rw [List.count_erase_self, hcount] at hpos
    omega
  refine ⟨by rw [hstep1], by rw [hstep1]; exact hgone, ?_⟩
  rw [hstep1]
  exact login_invalid_2fa c now2 _ hp password code ip2 hhash hsusp rfl hcmp h2fa htotp hgone

/-- C3 witness — a 2FA user holding one hashed backup code: the code
logs in once and the identical second attempt is rejected. -/
theorem c3_backup_code_witness :
    (login demoCrypto 0
      { baseUser with twoFactorEnabled := true, twoFactorSecret := some "secret",
                      backupCodes := ["sha256:ABCD-1234"] }
      "pw" (some "ABCD-1234") none).1 = .ok (.success 1) ∧
    "sha256:ABCD-1234" ∉ (login demoCrypto 0
      { baseUser with twoFactorEnabled := true, twoFactorSecret := some "secret",
                      backupCodes := ["sha256:ABCD-1234"] }
      "pw" (some "ABCD-1234") none).2.backupCodes ∧
    login demoCrypto 7 (login demoCrypto 0
      { baseUser with twoFactorEnabled := true, twoFactorSecret := some "secret",
                      backupCodes := ["sha256:ABCD-1234"] }
      "pw" (some "ABCD-1234") none).2 "pw" (some "ABCD-1234") none =
      (.error (.unauthorized "Invalid two-factor authentication code"),
       (login demoCrypto 0
        { baseUser with twoFactorEnabled := true, twoFactorSecret := some "secret",
                        backupCodes := ["sha256:ABCD-1234"] }
        "pw" (some "ABCD-1234") none).2) :=
  c3_backup_code_single_use demoCrypto 0 7
    { baseUser with twoFactorEnabled := true, twoFactorSecret := some "secret",
                    backupCodes := ["sha256:ABCD-1234"] }
    "pw" "pw" "ABCD-1234" none none
    rfl rfl rfl (by decide) rfl (by decide) (by decide) (by decide)

/-! ## C9 — the two co-present signup versions diverge -/

/-- C9 — For a valid signup input (a well-formed, non-duplicate email
and a strength-valid password), the first signup version creates the
user with no `emailVerificationExpiry`, while the second creates it with
the expiry 24 hours after creation; the two versions are not equivalent
as functions from input to stored state. -/
theorem c9_signup_divergence :
    (signupV1 demoCrypto "vtok" "rtok" 1 1 0 ⟨[], []⟩
        ⟨"alice@example.com", "Str0ng!Pass", none, none⟩ none none).1 = .ok 1 ∧
    (signupV2 demoCrypto "vtok" "rtok" 1 1 0 ⟨[], []⟩
        ⟨"alice@example.com", "Str0ng!Pass", none, none⟩ none none).1 = .ok 1 ∧
    ((signupV1 demoCrypto "vtok" "rtok" 1 1 0 ⟨[], []⟩
        ⟨"alice@example.com", "Str0ng!Pass", none, none⟩ none none).2.users.map
      (fun u => u.emailVerificationExpiry)) = [none] ∧
    ((signupV2 demoCrypto "vtok" "rtok" 1 1 0 ⟨[], []⟩
        ⟨"alice@example.com", "Str0ng!Pass", none, none⟩ none none).2.users.map
      (fun u => u.emailVerificationExpiry)) = [some 86400000] ∧
    signupV1 demoCrypto "vtok" "rtok" 1 1 0 ⟨[], []⟩
        ⟨"alice@example.com", "Str0ng!Pass", none, none⟩ none none ≠
      signupV2 demoCrypto "vtok" "rtok" 1 1 0 ⟨[], []⟩
        ⟨"alice@example.com", "Str0ng!Pass", none, none⟩ none none := by
  refine ⟨rfl, rfl, rfl, rfl, ?_⟩
  intro h
  have h2 := congrArg (fun r => r.2.users.map (fun u => u.emailVerificationExpiry)) h
  simp only at h2
  rw [show ((signupV1 demoCrypto "vtok" "rtok" 1 1 0 ⟨[], []⟩
      ⟨"alice@example.com", "Str0ng!Pass", none, none⟩ none none).2.users.map
      (fun u => u.emailVerificationExpiry)) = [none] from rfl] at h2
  rw [show ((signupV2 demoCrypto "vtok" "rtok" 1 1 0 ⟨[], []⟩
      ⟨"alice@example.com", "Str0ng!Pass", none, none⟩ none none).2.users.map
      (fun u => u.emailVerificationExpiry)) = [some 86400000] from rfl] at h2
  simp at h2

/-! ## C6 — email verification contract of the two co-present versions -/

/-- C6 counterexample — a user whose verification token is expired
(`emailVerificationExpiry = 5 < now = 10`) and not yet verified: the
first `verifyEmail` version *succeeds*, where the claim requires a
`ValidationError` for an expired token; the second version raises the
expiry error on the same input, so the two co-present versions also do
not agree. -/
theorem c6_verify_email_counterexample :
    verificationExpired
      { baseUser with emailVerificationToken := some "t",
                      emailVerificationExpiry := some 5 } 10 = true ∧
    (verifyEmailV1 10
      ⟨[{ baseUser with emailVerificationToken := some "t",
                        emailVerificationExpiry := some 5 }], []⟩ "t").1 =
      .ok "Email verified successfully" ∧
    (verifyEmailV2 10
      ⟨[{ baseUser with emailVerificationToken := some "t",
                        emailVerificationExpiry := some 5 }], []⟩ "t").1 =
      .error (.validation "Verification token has expired. Please request a new one.") :=
  ⟨rfl, rfl, rfl⟩

/-- C6 (amended) — the second `verifyEmail` version raises
`ValidationError` in exactly the three claimed cases (no user holds the
token; the expiry is set and earlier than now; the user is already
verified) and on success sets the verified flag and timestamp and clears
both the token and the expiry. The first version performs no expiry
check: it raises only on no-match and already-verified, succeeds even
for an expired token, and leaves `emailVerificationExpiry` untouched —
the two co-present versions do not agree on the contract. -/
theorem c6_verify_email (now : Nat) (db : DB) (token : String) :
    (db.users.find? (fun v => v.emailVerificationToken == some token) = none →
      verifyEmailV1 now db token =
        (.error (.validation "Invalid or expired verification token"), db) ∧
      verifyEmailV2 now db token =
        (.error (.validation "Invalid verification token"), db)) ∧
    (∀ u, db.users.find? (fun v => v.emailVerificationToken == some token) = some u →
      (verificationExpired u now = true →
        verifyEmailV2 now db token =
          (.error (.validation
            "Verification token has expired. Please request a new one."), db)) ∧
      (verificationExpired u now = false → u.emailVerified = true →
        verifyEmailV2 now db token =
          (.error (.validation "Email already verified"), db)) ∧
      (verificationExpired u now = false → u.emailVerified = false →
        verifyEmailV2 now db token =
          (.ok "Email verified successfully",
           { db with users := updateUser db.users u.id (fun v =>
               { v with emailVerified := true, emailVerifiedAt := some now,
                        emailVerificationToken := none,
                        emailVerificationExpiry := none }) })) ∧
      (u.emailVerified = true →
        verifyEmailV1 now db token =
          (.error (.validation "Email already verified"), db)) ∧
      (u.emailVerified = false →
        verifyEmailV1 now db token =
          (.ok "Email verified successfully",
           { db with users := updateUser db.users u.id (fun v =>
               { v with emailVerified := true, emailVerifiedAt := some now,
                        emailVerificationToken := none }) }))) := by
  constructor
  · intro hnone
    exact ⟨by simp [verifyEmailV1, hnone], by simp [verifyEmailV2, hnone]⟩
  · intro u hsome
    refine ⟨fun hexp => ?_, fun hexp hver => ?_, fun hexp hver => ?_,
            fun hver => ?_, fun hver => ?_⟩
    · simp [verifyEmailV2, hsome, hexp]
    · simp [verifyEmailV2, hsome, hexp, hver]
    · simp [verifyEmailV2, hsome, hexp, hver]
    · simp [verifyEmailV1, hsome, hver]
    · simp [verifyEmailV1, hsome, hver]

/-- C6 witness — a matching, unexpired, unverified user: the second
version verifies and clears both token and expiry. -/
theorem c6_verify_email_witness :
    verifyEmailV2 10
      ⟨[{ baseUser with emailVerificationToken := some "t",
                        emailVerificationExpiry := some 99 }], []⟩ "t" =
      (.ok "Email verified successfully",
       { users := updateUser
           [{ baseUser with emailVerificationToken := some "t",
                            emailVerificationExpiry := some 99 }] 1 (fun v =>
             { v with emailVerified := true, emailVerifiedAt := some 10,
                      emailVerificationToken := none,
                      emailVerificationExpiry := none }),
         sessions := [] }) := by
  have h := (c6_verify_email 10
    ⟨[{ baseUser with emailVerificationToken := some "t",
                      emailVerificationExpiry := some 99 }], []⟩ "t").2
    { baseUser with emailVerificationToken := some "t",
                    emailVerificationExpiry := some 99 } rfl
  exact h.2.2.1 rfl rfl

/-! ## C4 — anti-enumeration responses -/

/-- C4 counterexample — an existing, already-verified account: for the
pair of emails (the verified user and an absent address),
`resendVerificationEmail` does not return the same response in both
runs: for the present, verified account it raises
`ValidationError "Email already verified"` while for the absent one it
returns the generic message — the response reveals account existence. -/
theorem c4_anti_enumeration_counterexample :
    (resendVerificationEmail "t"
      ⟨[{ baseUser with email := "alice@x.com", emailVerified := true }], []⟩
      "alice@x.com").1 = .error (.validation "Email already verified") ∧
    (resendVerificationEmail "t"
      ⟨[{ baseUser with email := "alice@x.com", emailVerified := true }], []⟩
      "bob@x.com").1 = .ok resendMessage ∧
    (resendVerificationEmail "t"
      ⟨[{ baseUser with email := "alice@x.com", emailVerified := true }], []⟩
      "alice@x.com").1 ≠
    (resendVerificationEmail "t"
      ⟨[{ baseUser with email := "alice@x.com", emailVerified := true }], []⟩
      "bob@x.com").1 := by
  refine ⟨rfl, rfl, fun h => ?_⟩
  exact Except.noConfusion h

/-- C4 (amended) — `requestPasswordReset` returns the byte-identical
generic message for every email, whether or not an account exists; and
`resendVerificationEmail` returns the byte-identical generic message
whenever the email does not correspond to an account or corresponds to
an *unverified* account, but raises `ValidationError` for an existing
already-verified account — for that pair of inputs the responses differ,
revealing existence. -/
theorem c4_anti_enumeration (genTok : String) (now : Nat) (db : DB) (email : String) :
    (requestPasswordReset genTok now db email).1 = .ok resetRequestMessage ∧
    (db.users.find? (fun u => u.email == normalizeEmail email) = none →
      (resendVerificationEmail genTok db email).1 = .ok resendMessage) ∧
    (∀ u, db.users.find? (fun u => u.email == normalizeEmail email) = some u →
      (u.emailVerified = false →
        (resendVerificationEmail genTok db email).1 = .ok resendMessage) ∧
      (u.emailVerified = true →
        resendVerificationEmail genTok db email =
          (.error (.validation "Email already verified"), db))) := by
  refine ⟨?_, fun hnone => ?_, fun u hsome => ⟨fun hver => ?_, fun hver => ?_⟩⟩
  · rcases hf : db.users.find? (fun u => u.email == normalizeEmail email) with _ | u <;>
      simp [requestPasswordReset, hf]
  · simp [resendVerificationEmail, hnone]
  · simp [resendVerificationEmail, hsome, hver]
  · simp [resendVerificationEmail, hsome, hver]

/-- C4 witness — an unverified account and an absent address get the
identical generic resend message, and the reset request always returns
its generic message. -/
theorem c4_anti_enumeration_witness :
    (requestPasswordReset "g" 0 ⟨[baseUser], []⟩ "user@example.com").1 =
      .ok resetRequestMessage ∧
    (resendVerificationEmail "g" ⟨[baseUser], []⟩ "user@example.com").1 =
      .ok resendMessage ∧
    (resendVerificationEmail "g" ⟨[baseUser], []⟩ "absent@example.com").1 =
      .ok resendMessage := by
  have h1 := c4_anti_enumeration "g" 0 ⟨[baseUser], []⟩ "user@example.com"
  have h2 := c4_anti_enumeration "g" 0 ⟨[baseUser], []⟩ "absent@example.com"
  exact ⟨h1.1, (h1.2.2 baseUser rfl).1 rfl, h2.2.1 rfl⟩

/-! ## C2 — password reset is single-use and revokes all sessions -/

/-- C2 — `resetPassword` raises `ValidationError` whenever no user holds
the token with an expiry strictly in the future; on success (the found
user, a strength-valid new password, and the store holding the reset
token only on that user, as the column is unique) it stores the new
hash, clears the reset token and expiry, resets the lockout counters,
deletes every session of that user (and no other user's session), makes
any reuse of the same token fail with `ValidationError` at every later
time, and makes a refresh with any refresh token that only that user's
sessions carried fail with `UnauthorizedError`. -/
theorem c2_reset_password (c : Crypto) (now : Nat) (db : DB) (token newPassword : String) :
    ((∀ v ∈ db.users, resetTokenMatch now token v = false) →
      resetPassword c now db token newPassword =
        (.error (.validation "Invalid or expired reset token"), db)) ∧
    (∀ u, db.users.find? (resetTokenMatch now token) = some u →
      validatePasswordStrength newPassword = .ok () →
      (∀ v ∈ db.users, v.passwordResetToken = some token → v.id = u.id) →
      (resetPassword c now db token newPassword).1 =
        .ok "Password reset successfully. Please log in with your new password." ∧
      (∃ v ∈ (resetPassword c now db token newPassword).2.users,
        v.id = u.id ∧ v.hashedPassword = some (c.hashPassword newPassword) ∧
        v.passwordResetToken = none ∧ v.passwordResetExpiry = none ∧
        v.failedLoginAttempts = 0 ∧ v.lockedUntil = none) ∧
      (∀ s ∈ (resetPassword c now db token newPassword).2.sessions, s.userId ≠ u.id) ∧
      (∀ s ∈ db.sessions, s.userId ≠ u.id →
        s ∈ (resetPassword c now db token newPassword).2.sessions) ∧
      (∀ now2 newPw2,
        (resetPassword c now2 (resetPassword c now db token newPassword).2
          token newPw2).1 = .error (.validation "Invalid or expired reset token")) ∧
      (∀ rt now3, (∀ s ∈ db.sessions, s.refreshToken = rt → s.userId = u.id) →
        (refreshAccessToken now3 (resetPassword c now db token newPassword).2 rt).1 =
          .error (.unauthorized "Invalid refresh token"))) := by
  constructor
  · intro hall
    have hnone : db.users.find? (resetTokenMatch now token) = none := by
      rw [List.find?_eq_none]
      intro v hv
      simp [hall v hv]
    simp [resetPassword, hnone]
  · intro u hfind hstr huniq
    have hred : resetPassword c now db token newPassword =
        (.ok "Password reset successfully. Please log in with your new password.",
         { users := updateUser db.users u.id (fun v =>
             { v with hashedPassword := some (c.hashPassword newPassword),
                      passwordResetToken := none, passwordResetExpiry := none,
                      failedLoginAttempts := 0, lockedUntil := none }),
           sessions := db.sessions.filter (fun s => !(s.userId == u.id)) }) := by
      simp [resetPassword, hfind, hstr]
    have humem : u ∈ db.users := List.mem_of_find?_eq_some hfind
    refine ⟨by rw [hred], ?_, ?_, ?_, ?_, ?_⟩
    · rw [hred]
      refine ⟨{ u with hashedPassword := some (c.hashPassword newPassword),
                       passwordResetToken := none, passwordResetExpiry := none,
                       failedLoginAttempts := 0, lockedUntil := none }, ?_,
              rfl, rfl, rfl, rfl, rfl, rfl⟩
      exact List.mem_map.2 ⟨u, humem, by simp⟩
    · rw [hred]
      intro s hs
      have := List.mem_filter.1 hs
      simpa using this.2
    · rw [hred]
      intro s hs hne
      exact List.mem_filter.2 ⟨hs, by simpa using hne⟩
    · intro now2 newPw2
      rw [hred]
      have hnone2 : (updateUser db.users u.id (fun v =>
          { v with hashedPassword := some (c.hashPassword newPassword),
                   passwordResetToken := none, passwordResetExpiry := none,
                   failedLoginAttempts := 0, lockedUntil := none })).find?
            (resetTokenMatch now2 token) = none := by
        rw [List.find?_eq_none]
        intro v' hv'
        obtain ⟨v, hv, hveq⟩ := List.mem_map.1 hv'
        by_cases hid : (v.id == u.id) = true
        · rw [← hveq]
          simp [hid, resetTokenMatch]
        · rw [← hveq]
          simp only [hid, Bool.false_eq_true, if_false]
          have hvtok : ¬ v.passwordResetToken = some token := fun hc =>
            hid (by simp [huniq v hv hc])
          simp [resetTokenMatch, hvtok]
      simp [resetPassword, hnone2]
    · intro rt now3 hrt
      rw [hred]
      have hnone3 : (db.sessions.filter (fun s => !(s.userId == u.id))).find?
          (fun s => s.refreshToken == rt) = none := by
        rw [List.find?_eq_none]
        intro s hs
        obtain ⟨hmem, hne⟩ := List.mem_filter.1 hs
        intro hc
        have hrteq : s.refreshToken = rt := by simpa using hc
        have := hrt s hmem hrteq
        simp [this] at hne
      simp [refreshAccessToken, hnone3]

/-- C2 witness — one user holding the unexpired token `"rt"` and one
session: the reset succeeds, reusing the token fails, and refreshing
with the old refresh token fails. -/
theorem c2_reset_password_witness :
    (resetPassword demoCrypto 0
      ⟨[{ baseUser with passwordResetToken := some "rt",
                        passwordResetExpiry := some 100 }],
       [{ id := 1, userId := 1, refreshToken := "refA", userAgent := "ua",
          ipAddress := "ip", expiresAt := 999, lastUsedAt := none }]⟩
      "rt" "Str0ng!Pass").1 =
      .ok "Password reset successfully. Please log in with your new password." ∧
    (∀ s ∈ (resetPassword demoCrypto 0
      ⟨[{ baseUser with passwordResetToken := some "rt",
                        passwordResetExpiry := some 100 }],
       [{ id := 1, userId := 1, refreshToken := "refA", userAgent := "ua",
          ipAddress := "ip", expiresAt := 999, lastUsedAt := none }]⟩
      "rt" "Str0ng!Pass").2.sessions, s.userId ≠ 1) ∧
    (resetPassword demoCrypto 50 (resetPassword demoCrypto 0
      ⟨[{ baseUser with passwordResetToken := some "rt",
                        passwordResetExpiry := some 100 }],
       [{ id := 1, userId := 1, refreshToken := "refA", userAgent := "ua",
          ipAddress := "ip", expiresAt := 999, lastUsedAt := none }]⟩
      "rt" "Str0ng!Pass").2 "rt" "Str0ng!Pass").1 =
      .error (.validation "Invalid or expired reset token") ∧
    (refreshAccessToken 1 (resetPassword demoCrypto 0
      ⟨[{ baseUser with passwordResetToken := some "rt",
                        passwordResetExpiry := some 100 }],
       [{ id := 1, userId := 1, refreshToken := "refA", userAgent := "ua",
          ipAddress := "ip", expiresAt := 999, lastUsedAt := none }]⟩
      "rt" "Str0ng!Pass").2 "refA").1 =
      .error (.unauthorized "Invalid refresh token") := by
  have h := (c2_reset_password demoCrypto 0
    ⟨[{ baseUser with passwordResetToken := some "rt",
                      passwordResetExpiry := some 100 }],
     [{ id := 1, userId := 1, refreshToken := "refA", userAgent := "ua",
        ipAddress := "ip", expiresAt := 999, lastUsedAt := none }]⟩
    "rt" "Str0ng!Pass").2
    { baseUser with passwordResetToken := some "rt",
                    passwordResetExpiry := some 100 }
    rfl rfl (by decide)
  exact ⟨h.1, h.2.2.1, h.2.2.2.2.1 50 "Str0ng!Pass", h.2.2.2.2.2 "refA" 1 (by decide)⟩

/-! ## C5 — refresh access token -/

/-- C5 — `refreshAccessToken`: no session holds the token →
`UnauthorizedError` with the store unchanged; the found session is
expired → the session (and only it) is deleted and `UnauthorizedError`
is raised; the owning user is suspended or soft-deleted →
`UnauthorizedError` with the store unchanged; otherwise a fresh access
token for the owner is returned, the session's `lastUsedAt` is touched,
and the refresh token is never rotated — every session row keeps its
identity, owner, refresh-token value and expiry. -/
theorem c5_refresh_access_token (now : Nat) (db : DB) (rt : String) :
    (db.sessions.find? (fun s => s.refreshToken == rt) = none →
      refreshAccessToken now db rt =
        (.error (.unauthorized "Invalid refresh token"), db)) ∧
    (∀ s, db.sessions.find? (fun t => t.refreshToken == rt) = some s →
      (s.expiresAt < now →
        (refreshAccessToken now db rt).1 =
          .error (.unauthorized "Refresh token expired") ∧
        s ∉ (refreshAccessToken now db rt).2.sessions ∧
        (∀ t ∈ db.sessions, t.id ≠ s.id →
          t ∈ (refreshAccessToken now db rt).2.sessions) ∧
        (refreshAccessToken now db rt).2.users = db.users) ∧
      (∀ u, ¬ s.expiresAt < now →
        db.users.find? (fun v => v.id == s.userId) = some u →
        ((u.isSuspended = true ∨ u.deletedAt.isSome = true) →
          refreshAccessToken now db rt =
            (.error (.unauthorized "Account is no longer active"), db)) ∧
        (u.isSuspended = false → u.deletedAt = none →
          (refreshAccessToken now db rt).1 = .ok { userId := u.id, email := u.email } ∧
          (refreshAccessToken now db rt).2.sessions.map
              (fun t => (t.id, t.userId, t.refreshToken, t.expiresAt)) =
            db.sessions.map (fun t => (t.id, t.userId, t.refreshToken, t.expiresAt)) ∧
          (∃ t ∈ (refreshAccessToken now db rt).2.sessions,
            t.id = s.id ∧ t.refreshToken = rt ∧ t.lastUsedAt = some now) ∧
          (refreshAccessToken now db rt).2.users = db.users))) := by
  constructor
  · intro hnone
    simp [refreshAccessToken, hnone]
  · intro s hfind
    have hsrt : s.refreshToken = rt := by
      have := List.find?_some hfind
      simpa using this
    have hsmem : s ∈ db.sessions := List.mem_of_find?_eq_some hfind
    constructor
    · intro hexp
      have hred : refreshAccessToken now db rt =
          (.error (.unauthorized "Refresh token expired"),
           { db with sessions := db.sessions.filter (fun t => !(t.id == s.id)) }) := by
        simp [refreshAccessToken, hfind, hexp]
      refine ⟨by rw [hred], ?_, ?_, by rw [hred]⟩
      · rw [hred]
        intro hc
        have := List.mem_filter.1 hc
        simp at this
      · rw [hred]
        intro t ht hne
        exact List.mem_filter.2 ⟨ht, by simpa using hne⟩
    · intro u hexp hufind
      constructor
      · intro hbad
        have hcond : (u.isSuspended || u.deletedAt.isSome) = true := by
          rcases hbad with h | h <;> simp [h]
        simp [refreshAccessToken, hfind, hexp, hufind, hcond]
      · intro hsusp hdel
        have hred : refreshAccessToken now db rt =
            (.ok { userId := u.id, email := u.email },
             { db with sessions := db.sessions.map (fun t =>
                 if t.id == s.id then { t with lastUsedAt := some now } else t) }) := by
          simp [refreshAccessToken, hfind, hexp, hufind, hsusp, hdel]
        refine ⟨by rw [hred], ?_, ?_, by rw [hred]⟩
        · rw [hred]
          simp only [List.map_map]
          refine List.map_congr_left ?_
          intro t ht
          by_cases hid : t.id = s.id <;> simp [hid]
        · rw [hred]
          refine ⟨{ s with lastUsedAt := some now }, ?_, rfl, hsrt, rfl⟩
          exact List.mem_map.2 ⟨s, hsmem, by simp⟩

/-- C5 witness — a live session owned by a healthy user: refresh
succeeds, keeps every session row's identity and token, and touches the
session. -/
theorem c5_refresh_access_token_witness :
    (refreshAccessToken 5
      ⟨[baseUser],
       [{ id := 1, userId := 1, refreshToken := "refA", userAgent := "ua",
          ipAddress := "ip", expiresAt := 999, lastUsedAt := none }]⟩ "refA").1 =
      .ok { userId := 1, email := "user@example.com" } ∧
    (refreshAccessToken 5
      ⟨[baseUser],
       [{ id := 1, userId := 1, refreshToken := "refA", userAgent := "ua",
          ipAddress := "ip", expiresAt := 999, lastUsedAt := none }]⟩ "refA").2.sessions.map
        (fun t => (t.id, t.userId, t.refreshToken, t.expiresAt)) =
      ([{ id := 1, userId := 1, refreshToken := "refA", userAgent := "ua",
          ipAddress := "ip", expiresAt := 999, lastUsedAt := none }] : List Session).map
        (fun t => (t.id, t.userId, t.refreshToken, t.expiresAt)) ∧
    (∃ t ∈ (refreshAccessToken 5
      ⟨[baseUser],
       [{ id := 1, userId := 1, refreshToken := "refA", userAgent := "ua",
          ipAddress := "ip", expiresAt := 999, lastUsedAt := none }]⟩ "refA").2.sessions,
      t.id = 1 ∧ t.refreshToken = "refA" ∧ t.lastUsedAt = some 5) := by
  have h := ((c5_refresh_access_token 5
    ⟨[baseUser],
     [{ id := 1, userId := 1, refreshToken := "refA", userAgent := "ua",
        ipAddress := "ip", expiresAt := 999, lastUsedAt := none }]⟩ "refA").2
    { id := 1, userId := 1, refreshToken := "refA", userAgent := "ua",
      ipAddress := "ip", expiresAt := 999, lastUsedAt := none } rfl).2
    baseUser (by decide) rfl
  have h2 := h.2 rfl rfl
  exact ⟨h2.1, h2.2.1, h2.2.2.1⟩

/-! ## C10 — session revocation is owner-scoped -/

/-- C10 — `deleteSession sessionId userId`: when no session with that id
belongs to that user (in particular when the session exists but is owned
by someone else), the call raises `NotFoundError` and the store is
unchanged; and (with session ids unique, as in the store) every session
removed by a call was owned by the calling user. -/
theorem c10_delete_session (db : DB) (sid uid : Nat) :
    ((∀ s ∈ db.sessions, ¬(s.id = sid ∧ s.userId = uid)) →
      deleteSession db sid uid = (.error (.notFound "Session not found"), db)) ∧
    ((db.sessions.map (fun s => s.id)).Nodup →
      ∀ s ∈ db.sessions, s ∉ (deleteSession db sid uid).2.sessions →
        s.userId = uid) := by
  constructor
  · intro hall
    have hnone : db.sessions.find? (fun s => s.id == sid && s.userId == uid) = none := by
      rw [List.find?_eq_none]
      intro s hs
      have := hall s hs
      simp only [not_and] at this
      by_cases h1 : s.id = sid
      · simp [h1, this h1]
      · simp [h1]
    simp [deleteSession, hnone]
  · intro hnodup s hs hnot
    rcases hfind : db.sessions.find? (fun t => t.id == sid && t.userId == uid)
      with _ | f
    · exfalso
      apply hnot
      simp [deleteSession, hfind, hs]
    · have hf := List.find?_some hfind
      have hfmem : f ∈ db.sessions := List.mem_of_find?_eq_some hfind
      have hf2 : f.id = sid ∧ f.userId = uid := by
        simp only [Bool.and_eq_true, beq_iff_eq] at hf
        exact hf
      have hfid : f.id = sid := hf2.1
      have hfuid : f.userId = uid := hf2.2
      have hsid : s.id = sid := by
        by_contra hne
        apply hnot
        simp only [deleteSession, hfind]
        exact List.mem_filter.2 ⟨hs, by simpa using hne⟩
      have hseq : s = f :=
        List.inj_on_of_nodup_map hnodup hs hfmem (by simp [hsid, hfid])
      rw [hseq]
      exact hfuid

/-- C10 witness — two sessions owned by users 1 and 2: revoking session
1 as user 2 fails `NotFoundError` with nothing deleted; revoking it as
user 1 removes only user 1's session. -/
theorem c10_delete_session_witness :
    deleteSession
      ⟨[], [{ id := 1, userId := 1, refreshToken := "r1", userAgent := "ua",
              ipAddress := "ip", expiresAt := 9, lastUsedAt := none },
            { id := 2, userId := 2, refreshToken := "r2", userAgent := "ua",
              ipAddress := "ip", expiresAt := 9, lastUsedAt := none }]⟩ 1 2 =
      (.error (.notFound "Session not found"),
       ⟨[], [{ id := 1, userId := 1, refreshToken := "r1", userAgent := "ua",
               ipAddress := "ip", expiresAt := 9, lastUsedAt := none },
             { id := 2, userId := 2, refreshToken := "r2", userAgent := "ua",
               ipAddress := "ip", expiresAt := 9, lastUsedAt := none }]⟩) ∧
    ({ id := 1, userId := 1, refreshToken := "r1", userAgent := "ua",
       ipAddress := "ip", expiresAt := 9, lastUsedAt := none } : Session).userId = 1 := by
  constructor
  · exact (c10_delete_session
      ⟨[], [{ id := 1, userId := 1, refreshToken := "r1", userAgent := "ua",
              ipAddress := "ip", expiresAt := 9, lastUsedAt := none },
            { id := 2, userId := 2, refreshToken := "r2", userAgent := "ua",
              ipAddress := "ip", expiresAt := 9, lastUsedAt := none }]⟩ 1 2).1
      (by decide)
  · exact (c10_delete_session
      ⟨[], [{ id := 1, userId := 1, refreshToken := "r1", userAgent := "ua",
              ipAddress := "ip", expiresAt := 9, lastUsedAt := none },
            { id := 2, userId := 2, refreshToken := "r2", userAgent := "ua",
              ipAddress := "ip", expiresAt := 9, lastUsedAt := none }]⟩ 1 1).2
      (by decide)
      { id := 1, userId := 1, refreshToken := "r1", userAgent := "ua",
        ipAddress := "ip", expiresAt := 9, lastUsedAt := none }
      (by decide) (by decide)

/-! ## C7 — main vs optional authentication middleware -/

/-- C7 counterexample — an inactive user with a valid access token: the
main middleware rejects with `UnauthorizedError`, but the optional
variant does **not** perform the activity/suspension/deletion checks —
it proceeds *with* the attached identity, where the claim says every
request the main middleware rejects proceeds without one. -/
theorem c7_optional_auth_counterexample :
    authMiddleware (fun _ => .ok ⟨1, "user@example.com", "access", none⟩)
        ⟨[{ baseUser with isActive := false }], []⟩ (some "Bearer tok") =
      .error (.unauthorized "Account is not active") ∧
    optionalAuthenticate (fun _ => .ok ⟨1, "user@example.com", "access", none⟩)
        ⟨[{ baseUser with isActive := false }], []⟩ (some "Bearer tok") =
      { user := some (1, "user@example.com"), sessionId := none } :=
  ⟨rfl, rfl⟩

/-- C7 (amended) — the main middleware rejects with `UnauthorizedError`
exactly when the bearer token is missing or malformed, token
verification fails, the token is not of type `access`, the loaded user
is missing, or the loaded user is inactive, suspended, or soft-deleted;
otherwise it attaches the identity and token-carried session id. The
optional variant never rejects: it proceeds unauthenticated on every
token-level failure (missing/malformed header, verification failure,
wrong type, missing user), but it does not re-check the account state —
whenever the store lookup finds the user it attaches the identity, even
for inactive, suspended, or soft-deleted accounts that the main
middleware rejects. -/
theorem c7_auth_middleware (vt : String → Except AuthError TokenPayload)
    (db : DB) (h : Option String) :
    (h = none →
      authMiddleware vt db h = .error (.unauthorized "No token provided") ∧
      optionalAuthenticate vt db h = ReqContext.anonymous) ∧
    (∀ hs, h = some hs → listPrefixOf "Bearer ".data hs.data = false →
      authMiddleware vt db h = .error (.unauthorized "No token provided") ∧
      optionalAuthenticate vt db h = ReqContext.anonymous) ∧
    (∀ hs e, h = some hs → listPrefixOf "Bearer ".data hs.data = true →
      vt ⟨hs.data.drop 7⟩ = .error e →
      authMiddleware vt db h = .error e ∧
      optionalAuthenticate vt db h = ReqContext.anonymous) ∧
    (∀ hs p, h = some hs → listPrefixOf "Bearer ".data hs.data = true →
      vt ⟨hs.data.drop 7⟩ = .ok p →
      (p.type ≠ "access" →
        authMiddleware vt db h = .error (.unauthorized "Invalid token type") ∧
        optionalAuthenticate vt db h = ReqContext.anonymous) ∧
      (p.type = "access" →
        (db.users.find? (fun u => u.id == p.userId) = none →
          authMiddleware vt db h = .error (.unauthorized "User not found") ∧
          optionalAuthenticate vt db h = ReqContext.anonymous) ∧
        (∀ u, db.users.find? (fun u => u.id == p.userId) = some u →
          optionalAuthenticate vt db h =
            { user := some (u.id, u.email), sessionId := none } ∧
          ((u.isActive = false ∨ u.isSuspended = true ∨ u.deletedAt.isSome = true) →
            authMiddleware vt db h = .error (.unauthorized "Account is not active")) ∧
          (u.isActive = true → u.isSuspended = false → u.deletedAt = none →
            authMiddleware vt db h =
              .ok { user := some (u.id, u.email), sessionId := p.sessionId })))) := by
  refine ⟨fun hn => ?_, fun hs hh hpre => ?_, fun hs e hh hpre hvt => ?_,
          fun hs p hh hpre hvt => ⟨fun hty => ?_, fun hty => ⟨fun hun => ?_, fun u hu => ?_⟩⟩⟩
  · subst hn
    exact ⟨rfl, rfl⟩
  · subst hh
    exact ⟨by simp [authMiddleware, hpre], by simp [optionalAuthenticate, hpre]⟩
  · subst hh
    exact ⟨by simp [authMiddleware, hpre, hvt], by simp [optionalAuthenticate, hpre, hvt]⟩
  · subst hh
    have hty2 : (p.type == "access") = false := by simp [hty]
    exact ⟨by simp [authMiddleware, hpre, hvt, hty2],
           by simp [optionalAuthenticate, hpre, hvt, hty2]⟩
  · subst hh
    have hty2 : (p.type == "access") = true := by simp [hty]
    exact ⟨by simp [authMiddleware, hpre, hvt, hty2, hun],
           by simp [optionalAuthenticate, hpre, hvt, hty2, hun]⟩
  · subst hh
    have hty2 : (p.type == "access") = true := by simp [hty]
    refine ⟨by simp [optionalAuthenticate, hpre, hvt, hty2, hu], fun hbad => ?_, ?_⟩
    · have hcond : (!u.isActive || u.isSuspended || u.deletedAt.isSome) = true := by
        rcases hbad with hb | hb | hb <;> simp [hb]
      simp [authMiddleware, hpre, hvt, hty2, hu, hcond]
    · intro hact hsusp hdel
      simp [authMiddleware, hpre, hvt, hty2, hu, hact, hsusp, hdel]

/-- C7 witness — an active, healthy user: the main middleware attaches
the identity and session id, and the optional variant attaches the same
identity. -/
theorem c7_auth_middleware_witness :
    authMiddleware (fun _ => .ok ⟨1, "user@example.com", "access", some 42⟩)
        ⟨[baseUser], []⟩ (some "Bearer tok") =
      .ok { user := some (1, "user@example.com"), sessionId := some 42 } ∧
    optionalAuthenticate (fun _ => .ok ⟨1, "user@example.com", "access", some 42⟩)
        ⟨[baseUser], []⟩ (some "Bearer tok") =
      { user := some (1, "user@example.com"), sessionId := none } := by
  have h := ((c7_auth_middleware
    (fun _ => .ok ⟨1, "user@example.com", "access", some 42⟩)
    ⟨[baseUser], []⟩ (some "Bearer tok")).2.2.2
    "Bearer tok" ⟨1, "user@example.com", "access", some 42⟩
    rfl (by decide) rfl).2 rfl
  have h2 := h.2 baseUser rfl
  exact ⟨h2.2.2 rfl rfl rfl, h2.1⟩

end DebtRescue
